import Mathlib

/-!
Verification of the GameBot orchestration core (src/app.py).

The shallow embedding below translates the data model and the operations of
the single source file `app.py`:

* `Msg` models a langchain message: role, text content, and an optional
  `tool_calls` field.  `tool_calls = none` models a message object that has
  no `tool_calls` attribute at all (`HumanMessage`, `ToolMessage`, the
  system-instruction tuple); `tool_calls = some l` models an `AIMessage`,
  whose `tool_calls` attribute is always present (possibly the empty list).
* `GameState` models the `GameState` TypedDict (lines 30-33): the
  `messages` channel (annotated with `add_messages`, hence append-merged)
  and the auxiliary `order` / `finished` keys, `Option` because a TypedDict
  key may be absent before the defaults fill it in.
* `maybe_route_to_tools` (lines 93-100), `chatbot_with_tools`
  (lines 102-108) and the compiled graph loop (lines 110-118, invoked with
  `recursion_limit 100` at line 217) are translated directly; exceptions
  become `Except.error`.
* The external model is a parameter: `llm_with_tools : List Msg → AIMsg`
  for the chat gateway, `generate_content` for the search-grounded call
  used by `search_game_online` (lines 72-83).  The `ToolNode` executing the
  tool calls is langgraph library code, so the list of tool-result messages
  it appends is likewise a parameter `toolExec`.
* `chat_input_handler` models the chat-input block (lines 204-231) and
  `startup` the top-level API-key check (lines 147-153).
-/

namespace Gamebot

inductive Role
  | user
  | assistant
  | system
  | tool
deriving DecidableEq, Repr

structure ToolCall where
  name : String
  args : String
deriving DecidableEq, Repr

/-- A langchain message.  `tool_calls = none` models absence of the
`tool_calls` attribute (`hasattr` is false); `some l` models an attribute
holding the list `l`. -/
structure Msg where
  role : Role
  content : String
  tool_calls : Option (List ToolCall)
deriving DecidableEq, Repr

/-- The value returned by `llm_with_tools.invoke`: an `AIMessage`, whose
`tool_calls` attribute always exists (default `[]`). -/
structure AIMsg where
  content : String
  tool_calls : List ToolCall
deriving DecidableEq, Repr

def AIMsg.toMsg (a : AIMsg) : Msg :=
  { role := Role.assistant, content := a.content, tool_calls := some a.tool_calls }

/-- `HumanMessage(content=...)`: no `tool_calls` attribute. -/
def HumanMessage (content : String) : Msg :=
  { role := Role.user, content := content, tool_calls := none }

/-- The `GameState` TypedDict (lines 30-33).  `messages` is the
`add_messages`-annotated channel; `order` and `finished` are plain keys that
may be absent from a partial state. -/
structure GameState where
  messages : List Msg
  order : Option (List String)
  finished : Option Bool
deriving DecidableEq, Repr

/-- The system instruction `GAMEBOT_SYSINT` (lines 36-53), a
`("system", text)` tuple, hence a system-role message without a
`tool_calls` attribute. -/
def GAMEBOT_SYSINT : Msg :=
  { role := Role.system
  , content := "You are GameBot, an interactive board game expert system. A human will talk to you about various board games and you will answer any questions about game rules, strategies, and history (and only about board games - no off-topic discussion, but you can chat about the games and their history).\n\nYou have access to the function `get_list_game()` to list available games.\nIf a user asks about a game not in the list, do not tell them it\x27s unavailable. Instead, print the game_name and call the `search_game_online(game_name)` tool to search online and help them.\nIf the game is in your list (for example: \x27Chess\x27), feel free to answer detailed questions about its rules, pieces, or strategy using your own knowledge.\n\nBe proactive and helpful. Respond in the user\x27s language.\nKeep your responses concise and friendly.\n\nIf any of the tools are unavailable, you can break the fourth wall and tell the user that they have not implemented them yet and should keep reading to do so."
  , tool_calls := none }

/-- `WELCOME_MSG` (line 55). -/
def WELCOME_MSG : String :=
  "Welcome to the GameBot expert system! How may I assist you with board games today?"

/-- `get_list_game` (lines 58-70): returns the literal triple-quoted string,
byte for byte. -/
def get_list_game : Unit → String := fun _ =>
  "\n    Game:\n    Monopoly\n    Scrabble\n    Chess\n    Cluedo\n    Uno\n    Mahjong\n    Mikado\n  "

/-- Structures mirroring the google-genai response shape used at line 83:
`response.candidates[0].content.parts[0].text`. -/
structure SearchPart where
  text : String
deriving DecidableEq, Repr

structure SearchContent where
  parts : List SearchPart
deriving DecidableEq, Repr

structure SearchCandidate where
  content : SearchContent
deriving DecidableEq, Repr

structure GenerateContentResponse where
  candidates : List SearchCandidate
deriving DecidableEq, Repr

/-- The f-string prompt built at line 75. -/
def search_prompt (game_name : String) : String :=
  "Can you give me a short description of the board game \x27" ++ game_name ++ "\x27?"

/-- `search_game_online` (lines 72-83).  The external
`client.models.generate_content` call is the parameter `generate_content`;
a raised exception is `Except.error`.  The body indexes
`candidates[0].content.parts[0].text` with no try/except, so an upstream
error propagates and an empty `candidates` or `parts` list raises an
IndexError (modelled as `Except.error "list index out of range"`). -/
def search_game_online
    (generate_content : String → Except String GenerateContentResponse)
    (game_name : String) : Except String String :=
  match generate_content (search_prompt game_name) with
  | Except.error e => Except.error e
  | Except.ok response =>
    match response.candidates with
    | [] => Except.error "list index out of range"
    | c :: _ =>
      match c.content.parts with
      | [] => Except.error "list index out of range"
      | p :: _ => Except.ok p.text

inductive Route
  | tools
  | END
deriving DecidableEq, Repr

/-- Message of the `ValueError` raised at line 95 (the f-string state dump
is immaterial). -/
def no_messages_error : String := "No messages found when parsing state"

/-- `maybe_route_to_tools` (lines 93-100): raise on an empty message list;
otherwise return `"tools"` iff the last message has a `tool_calls`
attribute holding a non-empty list, else `END`. -/
def maybe_route_to_tools (state : GameState) : Except String Route :=
  match state.messages.getLast? with
  | none => Except.error no_messages_error
  | some msg =>
    match msg.tool_calls with
    | some tcs => if tcs.length > 0 then Except.ok Route.tools else Except.ok Route.END
    | none => Except.ok Route.END

/-- The argument of `llm_with_tools.invoke` at line 105:
`[GAMEBOT_SYSINT] + state["messages"]`. -/
def gateway_input (state : GameState) : List Msg :=
  GAMEBOT_SYSINT :: state.messages

/-- The dictionary returned by the chatbot node:
`defaults | state | ("messages": [new_output])` (lines 103-108).  The
merge always yields both auxiliary keys (from `defaults` when the input
state lacks them) and the singleton list of new messages. -/
structure GameStateUpdate where
  messages : List Msg
  order : List String
  finished : Bool
deriving DecidableEq, Repr

def chatbot_with_tools_node (llm_with_tools : List Msg → AIMsg)
    (state : GameState) : GameStateUpdate :=
  let new_output : Msg :=
    if state.messages = [] then (AIMsg.mk WELCOME_MSG []).toMsg
    else (llm_with_tools (gateway_input state)).toMsg
  { messages := [new_output]
  , order := state.order.getD []
  , finished := state.finished.getD false }

/-- langgraph channel merge applied to the node's returned dictionary:
the `add_messages` channel appends, the plain channels take the returned
value. -/
def apply_update (state : GameState) (u : GameStateUpdate) : GameState :=
  { messages := state.messages ++ u.messages
  , order := some u.order
  , finished := some u.finished }

/-- One execution of the `chatbot` node: return dictionary plus merge. -/
def chatbot_with_tools (llm_with_tools : List Msg → AIMsg)
    (state : GameState) : GameState :=
  apply_update state (chatbot_with_tools_node llm_with_tools state)

/-- The `tools` node: `ToolNode([get_list_game, search_game_online])`
(line 90) executes every tool call of the last message and returns the
resulting tool messages under the `messages` key.  `ToolNode` is langgraph
library code, so the messages it produces are the parameter `toolExec`;
the node leaves `order` and `finished` untouched. -/
def tool_node (toolExec : List ToolCall → List Msg) (state : GameState) : GameState :=
  let pending := (state.messages.getLast?.bind Msg.tool_calls).getD []
  { state with messages := state.messages ++ toolExec pending }

inductive GraphError
  | recursionLimit
  | invalidState (msg : String)
deriving DecidableEq, Repr

def GraphError.text : GraphError → String
  | GraphError.recursionLimit =>
      "Recursion limit of 100 reached without hitting a stop condition."
  | GraphError.invalidState m => m

/-- The compiled graph (lines 110-118) run with a step budget: the edge
`START → chatbot`, the conditional edge `chatbot → (tools | END)` and the
edge `tools → chatbot`.  `fuel` counts executed nodes, as langgraph's
`recursion_limit` counts steps; running out of budget raises
`GraphRecursionError` (`GraphError.recursionLimit`).  The second component
counts how many times the `chatbot` node (the only gateway caller) was
executed. -/
def run_graph (llm_with_tools : List Msg → AIMsg)
    (toolExec : List ToolCall → List Msg) :
    Nat → GameState → Except GraphError GameState × Nat
  | 0, _ => (Except.error GraphError.recursionLimit, 0)
  | fuel + 1, state =>
    let state1 := chatbot_with_tools llm_with_tools state
    match maybe_route_to_tools state1 with
    | Except.error e => (Except.error (GraphError.invalidState e), 1)
    | Except.ok Route.END => (Except.ok state1, 1)
    | Except.ok Route.tools =>
      match fuel with
      | 0 => (Except.error GraphError.recursionLimit, 1)
      | fuel2 + 1 =>
        let r := run_graph llm_with_tools toolExec fuel2 (tool_node toolExec state1)
        (r.1, r.2 + 1)

/-- `graph.invoke(state, config)` with `config = ("recursion_limit": 100)`
(lines 217-218). -/
def graph_invoke (llm_with_tools : List Msg → AIMsg)
    (toolExec : List ToolCall → List Msg) (state : GameState) :
    Except GraphError GameState :=
  (run_graph llm_with_tools toolExec 100 state).1

/-- Number of chatbot-node executions (gateway round-trips) performed by
`graph.invoke` before it returns or raises. -/
def gateway_calls (llm_with_tools : List Msg → AIMsg)
    (toolExec : List ToolCall → List Msg) (state : GameState) : Nat :=
  (run_graph llm_with_tools toolExec 100 state).2

/-- An entry of `st.session_state.messages`, the displayed chat history:
a ("role", "content") dictionary. -/
structure ChatEntry where
  role : String
  content : String
deriving DecidableEq, Repr

/-- The per-session state: the displayed history
`st.session_state.messages` and the graph state
`st.session_state.graph_state` (lines 156-158). -/
structure SessionState where
  messages : List ChatEntry
  graph_state : GameState
deriving DecidableEq, Repr

/-- The error string built at line 229:
`f"Sorry, I encountered an error: (str(e))"`. -/
def turn_error_text (e : GraphError) : String :=
  "Sorry, I encountered an error: " ++ e.text

/-- The chat-input handler (lines 204-231), the `submit` operation:
append the user entry to the displayed history, append a `HumanMessage` to
the graph state, call `graph.invoke` inside try/except; on success store
the result as the new graph state and return the last message's content,
on any exception append and return the error text instead.  The second
component is the text the turn yields. -/
def chat_input_handler (llm_with_tools : List Msg → AIMsg)
    (toolExec : List ToolCall → List Msg) (prompt : String)
    (session : SessionState) : SessionState × String :=
  let session1 : SessionState :=
    { session with messages := session.messages ++ [ChatEntry.mk "user" prompt] }
  let session2 : SessionState :=
    { session1 with graph_state :=
        { session1.graph_state with
            messages := session1.graph_state.messages ++ [HumanMessage prompt] } }
  match graph_invoke llm_with_tools toolExec session2.graph_state with
  | Except.ok result =>
    let session3 : SessionState := { session2 with graph_state := result }
    match result.messages.getLast? with
    | some last_message =>
      let response := last_message.content
      ({ session3 with
          messages := session3.messages ++ [ChatEntry.mk "assistant" response] },
        response)
    | none =>
      let error_message := turn_error_text (GraphError.invalidState "list index out of range")
      ({ session3 with
          messages := session3.messages ++ [ChatEntry.mk "assistant" error_message] },
        error_message)
  | Except.error e =>
    let error_message := turn_error_text e
    ({ session2 with
        messages := session2.messages ++ [ChatEntry.mk "assistant" error_message] },
      error_message)

/-- Outcome of the module-level startup sequence: either `st.stop()` was
reached after showing the configuration messages, or the app is running
with an initialized client. -/
inductive AppPhase
  | stopped (shown : List String)
  | ready (client_api_key : String)
deriving DecidableEq, Repr

/-- The API-key check at lines 147-153: if `GOOGLE_API_KEY` is absent from
the environment, show the two configuration messages and halt via
`st.stop()` before the `genai.Client` is created and before the graph (and
hence any model call) exists; otherwise initialize the client with the
key. -/
def startup (google_api_key : Option String) : AppPhase :=
  match google_api_key with
  | none =>
    AppPhase.stopped
      [ "Please set your GOOGLE_API_KEY in the .env file"
      , "Create a .env file with: GOOGLE_API_KEY=your_api_key_here" ]
  | some key => AppPhase.ready key

/-- The graph state after line 211 appended the new `HumanMessage` to
`st.session_state.graph_state["messages"]` (spelled field by field). -/
def pushed_graph_state (session : SessionState) (prompt : String) : GameState :=
  { messages := session.graph_state.messages ++ [HumanMessage prompt]
  , order := session.graph_state.order
  , finished := session.graph_state.finished }

/-- Statement-side helper for the formatting contract of `get_list_game`:
split a character list at newline characters (structural, so the kernel can
evaluate it). -/
def splitOnNewlines : List Char → List (List Char)
  | [] => [[]]
  | c :: cs =>
    let rest := splitOnNewlines cs
    if c = '\n' then [] :: rest
    else
      match rest with
      | [] => [[c]]
      | l :: ls => (c :: l) :: ls

/-- Statement-side helper: strip leading and trailing spaces. -/
def stripSpaces (cs : List Char) : List Char :=
  ((cs.dropWhile (fun c => c = ' ')).reverse.dropWhile (fun c => c = ' ')).reverse

/-- Statement-side helper: the lines of a string, surrounding spaces
stripped. -/
def trimmedLines (s : String) : List String :=
  ((splitOnNewlines s.toList).map stripSpaces).map (fun cs => String.mk cs)

/-- A gateway stub that never requests a tool call. -/
def llm_plain : List Msg → AIMsg := fun _ => AIMsg.mk "ok" []

/-- A second gateway stub with a different answer. -/
def llm_plain2 : List Msg → AIMsg := fun _ => AIMsg.mk "fine" []

/-- A scripted gateway stub that always requests a tool call. -/
def llm_loop : List Msg → AIMsg := fun _ => AIMsg.mk "" [ToolCall.mk "get_list_game" ""]

/-- A tool executor producing no result messages. -/
def tool_exec_nil : List ToolCall → List Msg := fun _ => []

/-- The state a fresh session starts from (line 158). -/
def empty_game_state : GameState := { messages := [], order := none, finished := none }

/-- A fresh session (lines 156-158), before any turn. -/
def empty_session : SessionState := { messages := [], graph_state := empty_game_state }

/-- A state whose last message carries one pending tool call. -/
def sample_tool_call : ToolCall := { name := "get_list_game", args := "" }

def sample_tools_msg : Msg :=
  { role := Role.assistant, content := "", tool_calls := some [sample_tool_call] }

def sample_tools_state : GameState :=
  { messages := [sample_tools_msg], order := none, finished := none }

/-- A state whose last message has no `tool_calls` attribute at all. -/
def sample_user_state : GameState :=
  { messages := [HumanMessage "hello"], order := none, finished := none }

/-- A mid-conversation state carrying both auxiliary fields. -/
def hello_state : GameState :=
  { messages := [HumanMessage "hello"], order := some ["Uno"], finished := some false }

/-- An external search call that raises. -/
def failing_generate : String → Except String GenerateContentResponse :=
  fun _ => Except.error "upstream failure"

/-- An external search response without any candidate. -/
def empty_response : GenerateContentResponse := { candidates := [] }

/-! ## Helper lemmas -/

theorem chatbot_of_ne_nil (llm : List Msg → AIMsg) (s : GameState) (h : s.messages ≠ []) :
    chatbot_with_tools llm s =
      { messages := s.messages ++ [(llm (gateway_input s)).toMsg],
        order := some (s.order.getD []), finished := some (s.finished.getD false) } := by
  simp [chatbot_with_tools, chatbot_with_tools_node, apply_update, h]

theorem chatbot_of_nil (llm : List Msg → AIMsg) (s : GameState) (h : s.messages = []) :
    chatbot_with_tools llm s =
      { messages := [(AIMsg.mk WELCOME_MSG []).toMsg],
        order := some (s.order.getD []), finished := some (s.finished.getD false) } := by
  simp [chatbot_with_tools, chatbot_with_tools_node, apply_update, h]

theorem maybe_route_of_getLast (s : GameState) (m : Msg) (hm : s.messages.getLast? = some m) :
    maybe_route_to_tools s =
      (match m.tool_calls with
       | some tcs => if tcs.length > 0 then Except.ok Route.tools else Except.ok Route.END
       | none => Except.ok Route.END) := by
  unfold maybe_route_to_tools
  rw [hm]

/-- With a gateway that always requests a tool call, a run from any
non-empty log never reaches `END`: it exhausts any step budget and raises
the recursion-limit error, having executed at most `fuel` chatbot steps. -/
theorem run_graph_always_tools (llm : List Msg → AIMsg)
    (toolExec : List ToolCall → List Msg)
    (h : ∀ msgs, (llm msgs).tool_calls ≠ []) (fuel : Nat) :
    ∀ s : GameState, s.messages ≠ [] →
      (run_graph llm toolExec fuel s).1 = Except.error GraphError.recursionLimit ∧
      (run_graph llm toolExec fuel s).2 ≤ fuel := by
  induction fuel using Nat.strong_induction_on with
  | _ fuel ih =>
    intro s hs
    match fuel with
    | 0 => simp [run_graph]
    | fuel + 1 =>
      have hcb := chatbot_of_ne_nil llm s hs
      have hlast : (chatbot_with_tools llm s).messages.getLast?
          = some (llm (gateway_input s)).toMsg := by
        rw [hcb]
        exact List.getLast?_concat _
      have hl : 0 < (llm (gateway_input s)).tool_calls.length :=
        List.length_pos.mpr (h _)
      have hroute : maybe_route_to_tools (chatbot_with_tools llm s) = Except.ok Route.tools := by
        rw [maybe_route_of_getLast _ _ hlast]
        simp [AIMsg.toMsg, hl]
      match fuel with
      | 0 =>
        simp [run_graph, hroute]
      | fuel2 + 1 =>
        have hne2 : (tool_node toolExec (chatbot_with_tools llm s)).messages ≠ [] := by
          rw [hcb]
          simp [tool_node]
        have hih := ih fuel2 (by omega) (tool_node toolExec (chatbot_with_tools llm s)) hne2
        constructor
        · simp only [run_graph, hroute]
          exact hih.1
        · simp only [run_graph, hroute]
          omega

/-- When `graph.invoke` raises, the handler appends the user entry and the
error text to the displayed history, returns the error text, and leaves the
graph state exactly as it was after the user message was pushed. -/
theorem chat_input_handler_error (llm : List Msg → AIMsg)
    (toolExec : List ToolCall → List Msg) (prompt : String)
    (session : SessionState) (e : GraphError)
    (he : graph_invoke llm toolExec (pushed_graph_state session prompt) = Except.error e) :
    chat_input_handler llm toolExec prompt session =
      ({ messages := session.messages ++
            [ChatEntry.mk "user" prompt, ChatEntry.mk "assistant" (turn_error_text e)],
         graph_state := pushed_graph_state session prompt },
       turn_error_text e) := by
  have he' : graph_invoke llm toolExec
      { messages := session.graph_state.messages ++ [HumanMessage prompt]
      , order := session.graph_state.order
      , finished := session.graph_state.finished } = Except.error e := he
  simp only [chat_input_handler]
  rw [he']
  simp [pushed_graph_state]

/-- On every path, the handler appends the user entry and one assistant
entry holding the text it returns. -/
theorem chat_input_handler_appends (llm : List Msg → AIMsg)
    (toolExec : List ToolCall → List Msg) (prompt : String) (session : SessionState) :
    (chat_input_handler llm toolExec prompt session).1.messages =
      session.messages ++ [ChatEntry.mk "user" prompt,
        ChatEntry.mk "assistant" (chat_input_handler llm toolExec prompt session).2] := by
  simp only [chat_input_handler]
  cases hg : graph_invoke llm toolExec
      ({ messages := session.graph_state.messages ++ [HumanMessage prompt]
       , order := session.graph_state.order
       , finished := session.graph_state.finished } : GameState) with
  | error e => simp [hg]
  | ok result =>
    cases hl : result.messages.getLast? with
    | none => simp [hg, hl]
    | some last_message => simp [hg, hl]

/-! ## Claim theorems -/

/-- C1: the Turn Router `maybe_route_to_tools`, on a state whose message
log is non-empty and whose last message carries a tool-call list `l`,
returns `"tools"` if and only if `l` is non-empty, returns `END` when `l`
is empty, and on a state whose message log is empty it raises (returns the
`ValueError`) instead of producing a route. -/
theorem turn_router_spec (s : GameState) (m : Msg) (l : List ToolCall)
    (hm : s.messages.getLast? = some m) (hl : m.tool_calls = some l) :
    (maybe_route_to_tools s = Except.ok Route.tools ↔ l ≠ []) ∧
    (l = [] → maybe_route_to_tools s = Except.ok Route.END) ∧
    (∀ t : GameState, t.messages = [] →
      maybe_route_to_tools t = Except.error no_messages_error) := by
  have hr := maybe_route_of_getLast s m hm
  rw [hl] at hr
  refine ⟨?_, ?_, ?_⟩
  · rw [hr]
    cases l with
    | nil => simp
    | cons a as => simp
  · intro h0
    rw [hr, h0]
    simp
  · intro t ht
    simp [maybe_route_to_tools, ht]

theorem turn_router_spec_witness :
    sample_tools_state.messages.getLast? = some sample_tools_msg ∧
    sample_tools_msg.tool_calls = some [sample_tool_call] ∧
    ((maybe_route_to_tools sample_tools_state = Except.ok Route.tools ↔ [sample_tool_call] ≠ []) ∧
     ([sample_tool_call] = [] → maybe_route_to_tools sample_tools_state = Except.ok Route.END) ∧
     (∀ t : GameState, t.messages = [] →
       maybe_route_to_tools t = Except.error no_messages_error)) :=
  ⟨rfl, rfl, turn_router_spec sample_tools_state sample_tools_msg [sample_tool_call] rfl rfl⟩

/-- C10: on a non-empty log whose last message has no `tool_calls`
attribute at all (`none`), the router returns `END` rather than raising:
the `hasattr` check makes routing total over messages of any shape. -/
theorem router_total_without_tool_calls (s : GameState) (m : Msg)
    (hm : s.messages.getLast? = some m) (h : m.tool_calls = none) :
    maybe_route_to_tools s = Except.ok Route.END := by
  rw [maybe_route_of_getLast s m hm, h]

theorem router_total_without_tool_calls_witness :
    sample_user_state.messages.getLast? = some (HumanMessage "hello") ∧
    (HumanMessage "hello").tool_calls = none ∧
    maybe_route_to_tools sample_user_state = Except.ok Route.END :=
  ⟨rfl, rfl, router_total_without_tool_calls sample_user_state (HumanMessage "hello") rfl rfl⟩

/-- C3: on an empty message log the chatbot node returns the fixed welcome
message without consulting the gateway (its result does not depend on the
gateway function), the router then ends the turn, and this is the only
model-bypassing path: on any non-empty log the appended message is exactly
the gateway's output. -/
theorem chatbot_welcome_short_circuit (llm llm2 : List Msg → AIMsg) (s : GameState)
    (h : s.messages = []) :
    chatbot_with_tools llm s = chatbot_with_tools llm2 s ∧
    (chatbot_with_tools llm s).messages = [(AIMsg.mk WELCOME_MSG []).toMsg] ∧
    maybe_route_to_tools (chatbot_with_tools llm s) = Except.ok Route.END ∧
    (∀ t : GameState, t.messages ≠ [] →
      (chatbot_with_tools llm t).messages = t.messages ++ [(llm (gateway_input t)).toMsg]) := by
  refine ⟨?_, ?_, ?_, ?_⟩
  · rw [chatbot_of_nil llm s h, chatbot_of_nil llm2 s h]
  · rw [chatbot_of_nil llm s h]
  · rw [chatbot_of_nil llm s h]
    rfl
  · intro t ht
    rw [chatbot_of_ne_nil llm t ht]

theorem chatbot_welcome_short_circuit_witness :
    empty_game_state.messages = [] ∧
    (chatbot_with_tools llm_plain empty_game_state
        = chatbot_with_tools llm_plain2 empty_game_state ∧
     (chatbot_with_tools llm_plain empty_game_state).messages
        = [(AIMsg.mk WELCOME_MSG []).toMsg] ∧
     maybe_route_to_tools (chatbot_with_tools llm_plain empty_game_state)
        = Except.ok Route.END ∧
     (∀ t : GameState, t.messages ≠ [] →
       (chatbot_with_tools llm_plain t).messages
          = t.messages ++ [(llm_plain (gateway_input t)).toMsg])) :=
  ⟨rfl, chatbot_welcome_short_circuit llm_plain llm_plain2 empty_game_state rfl⟩

/-- C4: `get_list_game` is pure and deterministic (every call returns the
same literal string), its output is the newline-delimited literal in stable
order, and its trimmed non-empty lines besides the `Game:` header are
exactly the seven games in order. -/
theorem get_list_game_spec :
    (∀ u v : Unit, get_list_game u = get_list_game v) ∧
    get_list_game () =
      "\n    Game:\n" ++ "    Monopoly\n" ++ "    Scrabble\n" ++ "    Chess\n" ++
      "    Cluedo\n" ++ "    Uno\n" ++ "    Mahjong\n" ++ "    Mikado\n" ++ "  " ∧
    (trimmedLines (get_list_game ())).filter (fun l => l != "" && l != "Game:")
      = ["Monopoly", "Scrabble", "Chess", "Cluedo", "Uno", "Mahjong", "Mikado"] := by
  refine ⟨fun u v => rfl, rfl, by decide⟩

/-- C5: with a gateway stub that always requests a tool call, the turn is
halted by the `recursion_limit 100` cap within at most 100 gateway
round-trips; the handler surfaces the recoverable error as text and the
conversation state keeps exactly the messages already appended (the pushed
user message), the pending tool call being abandoned, not retried. -/
theorem iteration_cap_halts (llm : List Msg → AIMsg)
    (toolExec : List ToolCall → List Msg) (prompt : String) (session : SessionState)
    (h : ∀ msgs, (llm msgs).tool_calls ≠ []) :
    graph_invoke llm toolExec (pushed_graph_state session prompt)
      = Except.error GraphError.recursionLimit ∧
    gateway_calls llm toolExec (pushed_graph_state session prompt) ≤ 100 ∧
    (chat_input_handler llm toolExec prompt session).1.graph_state
      = pushed_graph_state session prompt ∧
    (chat_input_handler llm toolExec prompt session).1.messages =
      session.messages ++ [ChatEntry.mk "user" prompt,
        ChatEntry.mk "assistant" (turn_error_text GraphError.recursionLimit)] ∧
    (chat_input_handler llm toolExec prompt session).2
      = turn_error_text GraphError.recursionLimit := by
  have hne : (pushed_graph_state session prompt).messages ≠ [] := by
    simp [pushed_graph_state]
  have hrun := run_graph_always_tools llm toolExec h 100 (pushed_graph_state session prompt) hne
  have hinv : graph_invoke llm toolExec (pushed_graph_state session prompt)
      = Except.error GraphError.recursionLimit := hrun.1
  have herr := chat_input_handler_error llm toolExec prompt session GraphError.recursionLimit hinv
  refine ⟨hinv, hrun.2, ?_, ?_, ?_⟩ <;> rw [herr]

theorem iteration_cap_halts_witness :
    (∀ msgs, (llm_loop msgs).tool_calls ≠ []) ∧
    (graph_invoke llm_loop tool_exec_nil (pushed_graph_state empty_session "hi")
        = Except.error GraphError.recursionLimit ∧
     gateway_calls llm_loop tool_exec_nil (pushed_graph_state empty_session "hi") ≤ 100 ∧
     (chat_input_handler llm_loop tool_exec_nil "hi" empty_session).1.graph_state
        = pushed_graph_state empty_session "hi" ∧
     (chat_input_handler llm_loop tool_exec_nil "hi" empty_session).1.messages =
        empty_session.messages ++ [ChatEntry.mk "user" "hi",
          ChatEntry.mk "assistant" (turn_error_text GraphError.recursionLimit)] ∧
     (chat_input_handler llm_loop tool_exec_nil "hi" empty_session).2
        = turn_error_text GraphError.recursionLimit) :=
  ⟨fun _ => by simp [llm_loop],
   iteration_cap_halts llm_loop tool_exec_nil "hi" empty_session (fun _ => by simp [llm_loop])⟩

/-- C6 (amended): the handler never lets an exception escape: it always
returns text and appends the user entry plus one assistant entry carrying
that text to the displayed chat history; when the graph raises, the error
text is returned but the graph-state message log is left exactly as pushed
(the error text is not appended to the Conversation State). -/
theorem submit_always_returns_text (llm : List Msg → AIMsg)
    (toolExec : List ToolCall → List Msg) (prompt : String) (session : SessionState) :
    (chat_input_handler llm toolExec prompt session).1.messages =
      session.messages ++ [ChatEntry.mk "user" prompt,
        ChatEntry.mk "assistant" (chat_input_handler llm toolExec prompt session).2] ∧
    (∀ e, graph_invoke llm toolExec (pushed_graph_state session prompt) = Except.error e →
      (chat_input_handler llm toolExec prompt session).1.graph_state
        = pushed_graph_state session prompt ∧
      (chat_input_handler llm toolExec prompt session).2 = turn_error_text e) := by
  refine ⟨chat_input_handler_appends llm toolExec prompt session, ?_⟩
  intro e he
  have herr := chat_input_handler_error llm toolExec prompt session e he
  rw [herr]
  exact ⟨rfl, rfl⟩

theorem submit_always_returns_text_witness :
    (chat_input_handler llm_plain tool_exec_nil "hey" empty_session).1.messages =
      empty_session.messages ++ [ChatEntry.mk "user" "hey",
        ChatEntry.mk "assistant" (chat_input_handler llm_plain tool_exec_nil "hey" empty_session).2] ∧
    (∀ e, graph_invoke llm_plain tool_exec_nil (pushed_graph_state empty_session "hey")
        = Except.error e →
      (chat_input_handler llm_plain tool_exec_nil "hey" empty_session).1.graph_state
        = pushed_graph_state empty_session "hey" ∧
      (chat_input_handler llm_plain tool_exec_nil "hey" empty_session).2 = turn_error_text e) :=
  submit_always_returns_text llm_plain tool_exec_nil "hey" empty_session

/-- C6 (counterexample to the claim as stated): on a turn whose graph run
fails with the recursion-limit error, the handler returns the error text,
yet the Conversation State message log holds only the pushed user message:
the textual outcome is not appended to the Conversation State. -/
theorem submit_error_text_not_in_graph_log :
    (chat_input_handler llm_loop tool_exec_nil "hi" empty_session).2
      = turn_error_text GraphError.recursionLimit ∧
    (chat_input_handler llm_loop tool_exec_nil "hi" empty_session).1.graph_state.messages
      = [HumanMessage "hi"] ∧
    (∀ m ∈ (chat_input_handler llm_loop tool_exec_nil "hi" empty_session).1.graph_state.messages,
      m.content ≠ turn_error_text GraphError.recursionLimit) := by
  have h : ∀ msgs, (llm_loop msgs).tool_calls ≠ [] := fun _ => by simp [llm_loop]
  have hne : (pushed_graph_state empty_session "hi").messages ≠ [] := by
    simp [pushed_graph_state]
  have hrun := run_graph_always_tools llm_loop tool_exec_nil h 100
    (pushed_graph_state empty_session "hi") hne
  have hinv : graph_invoke llm_loop tool_exec_nil (pushed_graph_state empty_session "hi")
      = Except.error GraphError.recursionLimit := hrun.1
  have herr := chat_input_handler_error llm_loop tool_exec_nil "hi" empty_session
    GraphError.recursionLimit hinv
  rw [herr]
  refine ⟨rfl, by simp [pushed_graph_state, empty_session, empty_game_state], ?_⟩
  intro m hm
  simp [pushed_graph_state, empty_session, empty_game_state] at hm
  subst hm
  simp [HumanMessage, turn_error_text, GraphError.text]

/-- C7: on every gateway call of a turn the system instruction is prepended
to the outgoing messages at call time only; the stored log after the step
is exactly the previous log plus the model's own (assistant) output, and
never contains a system-role message (in particular not `GAMEBOT_SYSINT`)
when the previous log contained none. -/
theorem system_instruction_not_stored (llm : List Msg → AIMsg) (s : GameState)
    (hne : s.messages ≠ [])
    (hsys : ∀ m ∈ s.messages, m.role ≠ Role.system) :
    gateway_input s = GAMEBOT_SYSINT :: s.messages ∧
    (chatbot_with_tools llm s).messages = s.messages ++ [(llm (gateway_input s)).toMsg] ∧
    (∀ m ∈ (chatbot_with_tools llm s).messages, m.role ≠ Role.system) ∧
    GAMEBOT_SYSINT ∉ (chatbot_with_tools llm s).messages := by
  have hcb := chatbot_of_ne_nil llm s hne
  have h3 : ∀ m ∈ (chatbot_with_tools llm s).messages, m.role ≠ Role.system := by
    rw [hcb]
    intro m hm
    rcases List.mem_append.mp hm with h1 | h2
    · exact hsys m h1
    · have hm2 := List.mem_singleton.mp h2
      subst hm2
      simp [AIMsg.toMsg]
  exact ⟨rfl, by rw [hcb], h3, fun hmem => h3 GAMEBOT_SYSINT hmem rfl⟩

theorem system_instruction_not_stored_witness :
    hello_state.messages ≠ [] ∧
    (∀ m ∈ hello_state.messages, m.role ≠ Role.system) ∧
    (gateway_input hello_state = GAMEBOT_SYSINT :: hello_state.messages ∧
     (chatbot_with_tools llm_plain hello_state).messages
        = hello_state.messages ++ [(llm_plain (gateway_input hello_state)).toMsg] ∧
     (∀ m ∈ (chatbot_with_tools llm_plain hello_state).messages, m.role ≠ Role.system) ∧
     GAMEBOT_SYSINT ∉ (chatbot_with_tools llm_plain hello_state).messages) :=
  ⟨by simp [hello_state], by decide,
   system_instruction_not_stored llm_plain hello_state (by simp [hello_state]) (by decide)⟩

/-- C8: every execution of the chatbot node appends exactly one message to
the log and passes the auxiliary `order` and `finished` fields through
unchanged whenever they are present in the input state. -/
theorem chatbot_frame_preservation (llm : List Msg → AIMsg) (s : GameState)
    (o : List String) (f : Bool) (ho : s.order = some o) (hf : s.finished = some f) :
    (∃ m : Msg, (chatbot_with_tools llm s).messages = s.messages ++ [m]) ∧
    (chatbot_with_tools llm s).messages.length = s.messages.length + 1 ∧
    (chatbot_with_tools llm s).order = some o ∧
    (chatbot_with_tools llm s).finished = some f := by
  refine ⟨⟨_, rfl⟩, ?_, ?_, ?_⟩ <;>
    simp [chatbot_with_tools, chatbot_with_tools_node, apply_update, ho, hf]

theorem chatbot_frame_preservation_witness :
    hello_state.order = some ["Uno"] ∧
    hello_state.finished = some false ∧
    ((∃ m : Msg, (chatbot_with_tools llm_plain hello_state).messages
        = hello_state.messages ++ [m]) ∧
     (chatbot_with_tools llm_plain hello_state).messages.length
        = hello_state.messages.length + 1 ∧
     (chatbot_with_tools llm_plain hello_state).order = some ["Uno"] ∧
     (chatbot_with_tools llm_plain hello_state).finished = some false) :=
  ⟨rfl, rfl, chatbot_frame_preservation llm_plain hello_state ["Uno"] false rfl rfl⟩

/-- C9: when the model API credential is absent from the environment, the
startup sequence stops with the two configuration messages before any
client (and hence any model call) exists; with a credential present it
proceeds to a ready application. -/
theorem missing_api_key_halts_startup :
    startup none = AppPhase.stopped
      [ "Please set your GOOGLE_API_KEY in the .env file"
      , "Create a .env file with: GOOGLE_API_KEY=your_api_key_here" ] ∧
    (∀ key, startup none ≠ AppPhase.ready key) ∧
    (∀ k : String, startup (some k) = AppPhase.ready k) := by
  refine ⟨rfl, ?_, fun k => rfl⟩
  intro key h
  exact AppPhase.noConfusion h

/-- C2 (counterexample to the claim as stated): when the external
search-augmented call errors, `search_game_online` propagates the error out
of the tool invocation; it does not return any fallback text result. -/
theorem search_online_no_fallback :
    search_game_online failing_generate "Azul" = Except.error "upstream failure" ∧
    (∀ t : String, search_game_online failing_generate "Azul" ≠ Except.ok t) := by
  refine ⟨rfl, ?_⟩
  intro t h
  exact Except.noConfusion h

/-- C2 (amended): `search_game_online` has no internal error handling: an
upstream error propagates unchanged, a response with no candidates or no
parts raises the index error, and only a response with a first text part
yields a text result (that first part). -/
theorem search_online_propagation
    (generate_content : String → Except String GenerateContentResponse)
    (game_name e : String) (r : GenerateContentResponse) :
    (generate_content (search_prompt game_name) = Except.error e →
      search_game_online generate_content game_name = Except.error e) ∧
    (generate_content (search_prompt game_name) = Except.ok r → r.candidates = [] →
      search_game_online generate_content game_name
        = Except.error "list index out of range") ∧
    (∀ c rest, generate_content (search_prompt game_name) = Except.ok r →
      r.candidates = c :: rest → c.content.parts = [] →
      search_game_online generate_content game_name
        = Except.error "list index out of range") ∧
    (∀ c rest p prest, generate_content (search_prompt game_name) = Except.ok r →
      r.candidates = c :: rest → c.content.parts = p :: prest →
      search_game_online generate_content game_name = Except.ok p.text) := by
  refine ⟨?_, ?_, ?_, ?_⟩
  · intro hg
    simp [search_game_online, hg]
  · intro hg hc
    simp [search_game_online, hg, hc]
  · intro c rest hg hc hp
    simp [search_game_online, hg, hc, hp]
  · intro c rest p prest hg hc hp
    simp [search_game_online, hg, hc, hp]

theorem search_online_propagation_witness :
    (failing_generate (search_prompt "Azul") = Except.error "upstream failure" →
      search_game_online failing_generate "Azul" = Except.error "upstream failure") ∧
    (failing_generate (search_prompt "Azul") = Except.ok empty_response →
      empty_response.candidates = [] →
      search_game_online failing_generate "Azul"
        = Except.error "list index out of range") ∧
    (∀ c rest, failing_generate (search_prompt "Azul") = Except.ok empty_response →
      empty_response.candidates = c :: rest → c.content.parts = [] →
      search_game_online failing_generate "Azul"
        = Except.error "list index out of range") ∧
    (∀ c rest p prest, failing_generate (search_prompt "Azul") = Except.ok empty_response →
      empty_response.candidates = c :: rest → c.content.parts = p :: prest →
      search_game_online failing_generate "Azul" = Except.ok p.text) :=
  search_online_propagation failing_generate "Azul" "upstream failure" empty_response

end Gamebot
